import Mathlib

/-!
Verification of the quiz scoring core of `quiz_app.py` (office-plant
personality quiz).  The loader, accumulator, classifier and resolver are
embedded shallowly:

* spreadsheet cells become `Cell` (missing cells load as NA; a numeric
  cell, or a string cell that `pd.to_numeric` can parse, is modelled as
  `Cell.num`; any other string cell as `Cell.str`);
* Python floats become `PFloat`, a rational together with a NaN element,
  since `pd.to_numeric(errors := coerce)` produces NaN and every claim
  about scores must track it.  IEEE comparison semantics are modelled
  exactly where they matter: every comparison with NaN is false, NaN is
  truthy, NaN propagates through addition.  Rounding of rational sums is
  not modelled (the spec reasons about exact sums);
* the load-time `random.shuffle` calls are injected as explicit
  reordering functions, so that theorems can quantify over them.
-/

namespace QuizApp

/-- A spreadsheet cell as seen after `pd.read_excel`: missing (NA / NaN),
a textual value, or a numeric value. -/
inductive Cell where
  | na : Cell
  | txt : String → Cell
  | num : ℚ → Cell
deriving DecidableEq, Repr

/-- A Python float: either NaN or a (rational) numeric value. -/
inductive PFloat where
  | nan : PFloat
  | val : ℚ → PFloat
deriving DecidableEq, Repr

/-- Python `x <= y` on floats: false whenever either side is NaN. -/
def PFloat.leB : PFloat → PFloat → Bool
  | .val a, .val b => decide (a ≤ b)
  | _, _ => false

/-- Python truthiness of a float: `bool(0.0)` is false, every other float
including NaN is true. -/
def PFloat.truthy : PFloat → Bool
  | .nan => true
  | .val q => decide (q ≠ 0)

/-- Python float addition; NaN propagates. -/
def PFloat.add : PFloat → PFloat → PFloat
  | .val a, .val b => .val (a + b)
  | _, _ => .nan

/-- `pd.isna` on a cell. -/
def Cell.isna : Cell → Bool
  | .na => true
  | _ => false

/-- Python truthiness of a cell value: empty string and 0 are falsy;
NaN (a missing cell) is truthy. -/
def Cell.truthy : Cell → Bool
  | .na => true
  | .txt s => decide (s ≠ "")
  | .num q => decide (q ≠ 0)

/-- Python `str(...)` of a cell value.  `str(float("nan"))` is `"nan"`.
(The rendering of numeric cells is irrelevant to every claim; Python
formats floats slightly differently.) -/
def Cell.pyStr : Cell → String
  | .na => "nan"
  | .txt s => s
  | .num q => toString q

/-- `pd.to_numeric(errors := coerce)` on one cell: numeric values pass
through, everything else (missing, blank, non-numeric text) becomes NaN.
String cells that parse as numbers are modelled as `Cell.num` upstream. -/
def toNumeric : Cell → PFloat
  | .num q => .val q
  | _ => .nan

/-- Python `x or d` on floats: `x` when truthy, else the default. -/
def pyOrF (x d : PFloat) : PFloat :=
  if x.truthy then x else d

/-- One loaded answer option: `{"text": ..., "work": ..., "personality": ...}`. -/
structure Opt where
  text : String
  work : PFloat
  personality : PFloat
deriving DecidableEq, Repr

/-- One loaded question: `{"question": ..., "options": ...}`. -/
structure Question where
  question : String
  options : List Opt
deriving DecidableEq, Repr

/-- One source row of the quiz table, after column resolution: the
question cell, four answer-text cells, four work-score cells, four
personality-score cells.  The two skip columns carry no data the loader
reads, so they are not part of the row. -/
structure Row where
  question : Cell
  ans1 : Cell
  ans2 : Cell
  ans3 : Cell
  ans4 : Cell
  work1 : Cell
  work2 : Cell
  work3 : Cell
  work4 : Cell
  pers1 : Cell
  pers2 : Cell
  pers3 : Cell
  pers4 : Cell
deriving DecidableEq, Repr

def Row.ansAt (r : Row) : ℕ → Cell
  | 1 => r.ans1
  | 2 => r.ans2
  | 3 => r.ans3
  | 4 => r.ans4
  | _ => .na

def Row.workAt (r : Row) : ℕ → Cell
  | 1 => r.work1
  | 2 => r.work2
  | 3 => r.work3
  | 4 => r.work4
  | _ => .na

def Row.persAt (r : Row) : ℕ → Cell
  | 1 => r.pers1
  | 2 => r.pers2
  | 3 => r.pers3
  | 4 => r.pers4
  | _ => .na

/-- `str(row[ansN] or f"Option {i}")`: the cell value when truthy (note a
missing cell is NaN, which is truthy, hence renders as `"nan"`), else the
placeholder string. -/
def optionText (c : Cell) (i : ℕ) : String :=
  if c.truthy then c.pyStr else "Option " ++ toString i

/-- The option the loader builds from source position `i` (1..4) of a
row: `work_score = row[workI] or 0.0` after `to_numeric`, likewise the
personality score, and the answer text with its placeholder default. -/
def mkOption (r : Row) (i : ℕ) : Opt :=
  { text := optionText (r.ansAt i) i
    work := pyOrF (toNumeric (r.workAt i)) (.val 0)
    personality := pyOrF (toNumeric (r.persAt i)) (.val 0) }

/-- The question record built from one kept row; `σo` is the
`random.shuffle` applied to its option list. -/
def mkQuestion (σo : List Opt → List Opt) (r : Row) : Question :=
  { question := r.question.pyStr
    options := σo ([1, 2, 3, 4].map (mkOption r)) }

/-- `load_questions`, after column resolution: rows whose question cell
is NA are skipped (`continue`), every other row becomes a `Question`;
`σo` and `σq` are the two `random.shuffle` calls. -/
def load_questions (σo : List Opt → List Opt)
    (σq : List Question → List Question) (rows : List Row) : List Question :=
  σq ((rows.filter (fun r => !r.question.isna)).map (mkQuestion σo))

/-- The positional column names assigned when the quiz source looks
headerless (`colnames` in `load_questions`). -/
def quizColnames : List String :=
  ["question", "ans1", "ans2", "ans3", "ans4",
   "skip1", "work1", "work2", "work3", "work4",
   "skip2", "pers1", "pers2", "pers3", "pers4"]

/-- The headerless test of `load_questions`:
`len(df.columns) >= 15 or df.columns[0] in ["A", "Unnamed: 0"]`.
A loaded table always has a first column; an absent header is modelled by
the empty string. -/
def looksHeaderless (cols : List String) : Bool :=
  decide (15 ≤ cols.length) || decide (cols.headD "" = "A") ||
    decide (cols.headD "" = "Unnamed: 0")

/-- How the loader resolves columns: re-read positionally with
`quizColnames`, or keep the header-labeled columns. -/
inductive ColumnPlan where
  | positional : ColumnPlan
  | labeled : ColumnPlan
deriving DecidableEq, Repr

def choosePlan (cols : List String) : ColumnPlan :=
  if looksHeaderless cols then .positional else .labeled

/-- The row obtained from the first 15 columns read positionally under
`quizColnames`: index 0 is the question, 1..4 the answer texts, 6..9 the
work scores, 11..14 the personality scores; indices 5 and 10 are the two
skipped columns, which no loader code reads. -/
def rowOfCells (cs : List Cell) : Row :=
  { question := cs.getD 0 .na
    ans1 := cs.getD 1 .na
    ans2 := cs.getD 2 .na
    ans3 := cs.getD 3 .na
    ans4 := cs.getD 4 .na
    work1 := cs.getD 6 .na
    work2 := cs.getD 7 .na
    work3 := cs.getD 8 .na
    work4 := cs.getD 9 .na
    pers1 := cs.getD 11 .na
    pers2 := cs.getD 12 .na
    pers3 := cs.getD 13 .na
    pers4 := cs.getD 14 .na }

/-- One row of the results table: name, description, image_url. -/
structure ResultRow where
  name : Cell
  description : Cell
  image_url : Cell
deriving DecidableEq, Repr

/-- `load_results`: `df.dropna(subset := [name]).head(9)` — drop the rows
whose name cell is NA, keep the first 9 of what remains.  There is no
other control flow: no exception is raised when fewer than 9 remain. -/
def load_results (rows : List ResultRow) : List ResultRow :=
  (rows.filter (fun r => !r.name.isna)).take 9

/-- `get_result_category`: two independent threshold bands, computed with
Python float comparisons (so a NaN total fails both bounds and lands in
HIGH). -/
def get_result_category (work_score pers_score : PFloat) : String × String :=
  ((if work_score.leB (.val 10) then "LOW"
    else if work_score.leB (.val 15) then "MID" else "HIGH"),
   (if pers_score.leB (.val 10) then "LOW"
    else if pers_score.leB (.val 22) then "MID" else "HIGH"))

/-- The literal `category_map` dictionary of `find_result`. -/
def category_map : List ((String × String) × ℕ) :=
  [(("HIGH", "HIGH"), 0), (("MID", "HIGH"), 1), (("LOW", "HIGH"), 2),
   (("HIGH", "MID"), 3), (("MID", "MID"), 4), (("LOW", "MID"), 5),
   (("HIGH", "LOW"), 6), (("MID", "LOW"), 7), (("LOW", "LOW"), 8)]

/-- Dictionary lookup `category_map[key]` guarded by `key in category_map`. -/
def lookupCategory (k : String × String) : Option ℕ :=
  (category_map.find? (fun p => p.1 == k)).map (fun p => p.2)

/-- Outcome of `find_result`: the matched record, the explicit
`return None` branch, or an `IndexError` from `iloc` on a short table. -/
inductive FindOutcome where
  | found : ResultRow → FindOutcome
  | notFound : FindOutcome
  | indexError : FindOutcome
deriving DecidableEq, Repr

/-- `find_result`: classify the two totals, look the pair up in
`category_map`, and take `results_df.iloc[grid_index]`. -/
def find_result (work_score pers_score : PFloat)
    (results : List ResultRow) : FindOutcome :=
  match lookupCategory (get_result_category work_score pers_score) with
  | some i =>
    match results.get? i with
    | some r => .found r
    | none => .indexError
  | none => .notFound

/-- One step of the Calculate My Results loop over
`zip(questions, st.session_state.responses)`: an untruthy response
(None, or the empty string) is skipped, otherwise
`next(opt for opt in options if opt["text"] == chosen)` selects the first
option with the chosen text and both scores are accumulated; a chosen
text matching no option raises StopIteration, modelled as `none`. -/
def calcAux : List (Question × Option String) → PFloat × PFloat →
    Option (PFloat × PFloat)
  | [], acc => some acc
  | (q, resp) :: rest, acc =>
    match resp with
    | none => calcAux rest acc
    | some c =>
      if c = "" then calcAux rest acc
      else
        match q.options.find? (fun o => o.text == c) with
        | some o => calcAux rest (acc.1.add o.work, acc.2.add o.personality)
        | none => none

/-- The accumulator of the Calculate My Results handler: fold over the
zipped questions and responses starting from `total_work = 0.0`,
`total_pers = 0.0`. -/
def calcTotals (qs : List Question) (rs : List (Option String)) :
    Option (PFloat × PFloat) :=
  calcAux (qs.zip rs) (.val 0, .val 0)

/-- Spec-side score of one answer slot: the selected option contributes
its score, an unanswered slot contributes 0. -/
def selWork : Option Opt → PFloat
  | none => .val 0
  | some o => o.work

def selPers : Option Opt → PFloat
  | none => .val 0
  | some o => o.personality

/-- Spec-side raw sum of the work scores of a list of selections. -/
def rawWork (sel : List (Option Opt)) : PFloat :=
  sel.foldr (fun o acc => (selWork o).add acc) (.val 0)

/-- Spec-side raw sum of the personality scores of a list of selections. -/
def rawPers (sel : List (Option Opt)) : PFloat :=
  sel.foldr (fun o acc => (selPers o).add acc) (.val 0)

/-- The answer in one slot denotes a selection: `none` marks the slot
unanswered, and a chosen text denotes the first option of the question
carrying that text (which is how the handler resolves it). -/
inductive Selects (q : Question) : Option String → Option Opt → Prop
  | unanswered : Selects q none none
  | answered (c : String) (o : Opt) (hc : c ≠ "")
      (h : q.options.find? (fun t => t.text == c) = some o) :
      Selects q (some c) (some o)

/-- A quiz row with no question text at all. -/
def rowNoQuestion : Row :=
  { question := .na, ans1 := .na, ans2 := .na, ans3 := .na, ans4 := .na,
    work1 := .na, work2 := .na, work3 := .na, work4 := .na,
    pers1 := .na, pers2 := .na, pers3 := .na, pers4 := .na }

/-- Concrete options and questions used by witnesses. -/
def wOptA : Opt := { text := "A", work := .val 5, personality := .val 3 }

def wOptB : Opt := { text := "B", work := .val 1, personality := .val 1 }

def wQ : Question := { question := "Q", options := [wOptA, wOptB] }

def wQswapped : Question := { question := "Q", options := [wOptB, wOptA] }

/-- A question with two distinct options carrying the same text. -/
def dupQ : Question :=
  { question := "Q",
    options := [{ text := "A", work := .val 1, personality := .val 0 },
                { text := "A", work := .val 2, personality := .val 0 }] }

/-- The same question with its option list reversed. -/
def dupQswapped : Question :=
  { question := "Q",
    options := [{ text := "A", work := .val 2, personality := .val 0 },
                { text := "A", work := .val 1, personality := .val 0 }] }

/-- A quiz row whose work2 score cell is missing (blank in the source);
every other cell is well formed. -/
def rowBadWork2 : Row :=
  { question := .txt "Q1", ans1 := .txt "A", ans2 := .txt "B",
    ans3 := .txt "C", ans4 := .txt "D",
    work1 := .num 1, work2 := .na, work3 := .num 2, work4 := .num 3,
    pers1 := .num 1, pers2 := .num 3, pers3 := .num 1, pers4 := .num 1 }

/-- A quiz row whose third answer-text cell is missing. -/
def rowMissingAns3 : Row :=
  { question := .txt "Q2", ans1 := .txt "A", ans2 := .txt "B",
    ans3 := .na, ans4 := .txt "D",
    work1 := .num 1, work2 := .num 1, work3 := .num 1, work4 := .num 1,
    pers1 := .num 1, pers2 := .num 1, pers3 := .num 1, pers4 := .num 1 }

/-- A results source holding a single valid row. -/
def oneResultRow : List ResultRow :=
  [{ name := .txt "Cactus", description := .txt "spiky", image_url := .na }]

/-- A well-formed 9-row results table, for concrete witnesses. -/
def nineResults : List ResultRow :=
  List.replicate 9 { name := .txt "n", description := .na, image_url := .na }

/-- Helper: each component of the classifier output is one of the three
band labels. -/
theorem category_component_cases (w p : PFloat) :
    ((get_result_category w p).1 = "LOW" ∨ (get_result_category w p).1 = "MID" ∨
      (get_result_category w p).1 = "HIGH") ∧
    ((get_result_category w p).2 = "LOW" ∨ (get_result_category w p).2 = "MID" ∨
      (get_result_category w p).2 = "HIGH") := by
  unfold get_result_category
  constructor <;> split_ifs <;> simp

/-- Helper: whatever the two totals are, the category pair is a key of
`category_map`, with an index at most 8. -/
theorem lookup_category_total (w p : PFloat) :
    ∃ i : ℕ, i ≤ 8 ∧ lookupCategory (get_result_category w p) = some i := by
  obtain ⟨hw, hp⟩ := category_component_cases w p
  rcases hgc : get_result_category w p with ⟨wc, pc⟩
  rw [hgc] at hw hp
  simp only at hw hp
  rcases hw with h1 | h1 | h1 <;> rcases hp with h2 | h2 | h2 <;> subst h1 <;> subst h2 <;>
    first
      | exact ⟨0, by omega, by decide⟩
      | exact ⟨1, by omega, by decide⟩
      | exact ⟨2, by omega, by decide⟩
      | exact ⟨3, by omega, by decide⟩
      | exact ⟨4, by omega, by decide⟩
      | exact ⟨5, by omega, by decide⟩
      | exact ⟨6, by omega, by decide⟩
      | exact ⟨7, by omega, by decide⟩
      | exact ⟨8, by omega, by decide⟩

/-- Helper: when the category lookup yields an index inside the table,
`find_result` returns the record at that index. -/
theorem find_result_eq_found (w p : PFloat) (results : List ResultRow)
    {i : ℕ} (hl : lookupCategory (get_result_category w p) = some i)
    (hilt : i < results.length) :
    find_result w p results = .found (results.get ⟨i, hilt⟩) := by
  unfold find_result
  rw [hl]
  show (match results.get? i with
    | some r => FindOutcome.found r
    | none => FindOutcome.indexError) = _
  rw [List.get?_eq_get hilt]

/-- Claim C2: the classifier bands each dimension with inclusive upper
bounds: work at most 10 is LOW, above 10 and at most 15 is MID, above 15
is HIGH; personality at most 10 is LOW, above 10 and at most 22 is MID,
above 22 is HIGH; in particular work 10 is LOW, work 15 is MID,
personality 10 is LOW and personality 22 is MID. -/
theorem classifier_band_boundaries (w p : ℚ) :
    ((get_result_category (.val w) (.val p)).1 = "LOW" ↔ w ≤ 10) ∧
    ((get_result_category (.val w) (.val p)).1 = "MID" ↔ 10 < w ∧ w ≤ 15) ∧
    ((get_result_category (.val w) (.val p)).1 = "HIGH" ↔ 15 < w) ∧
    ((get_result_category (.val w) (.val p)).2 = "LOW" ↔ p ≤ 10) ∧
    ((get_result_category (.val w) (.val p)).2 = "MID" ↔ 10 < p ∧ p ≤ 22) ∧
    ((get_result_category (.val w) (.val p)).2 = "HIGH" ↔ 22 < p) ∧
    get_result_category (.val 10) (.val 10) = ("LOW", "LOW") ∧
    get_result_category (.val 15) (.val 22) = ("MID", "MID") := by
  refine ⟨?_, ?_, ?_, ?_, ?_, ?_, by decide, by decide⟩ <;>
    simp only [get_result_category, PFloat.leB, decide_eq_true_eq] <;>
    split_ifs <;>
    simp_all <;> linarith

/-- Claim C4: the resolver lookup table assigns exactly the fixed row
indices HIGH/HIGH 0, MID/HIGH 1, LOW/HIGH 2, HIGH/MID 3, MID/MID 4,
LOW/MID 5, HIGH/LOW 6, MID/LOW 7, LOW/LOW 8, and on a 9-row results
table `find_result` always returns the record at the looked-up index,
never the not-found branch. -/
theorem resolver_total_fixed_table :
    lookupCategory ("HIGH", "HIGH") = some 0 ∧
    lookupCategory ("MID", "HIGH") = some 1 ∧
    lookupCategory ("LOW", "HIGH") = some 2 ∧
    lookupCategory ("HIGH", "MID") = some 3 ∧
    lookupCategory ("MID", "MID") = some 4 ∧
    lookupCategory ("LOW", "MID") = some 5 ∧
    lookupCategory ("HIGH", "LOW") = some 6 ∧
    lookupCategory ("MID", "LOW") = some 7 ∧
    lookupCategory ("LOW", "LOW") = some 8 ∧
    ∀ (w p : PFloat) (results : List ResultRow), results.length = 9 →
      ∃ (i : ℕ) (h : i < results.length),
        lookupCategory (get_result_category w p) = some i ∧
        find_result w p results = .found (results.get ⟨i, h⟩) := by
  refine ⟨by decide, by decide, by decide, by decide, by decide, by decide,
    by decide, by decide, by decide, ?_⟩
  intro w p results hlen
  obtain ⟨i, hi, hl⟩ := lookup_category_total w p
  have hilt : i < results.length := by omega
  exact ⟨i, hilt, hl, find_result_eq_found w p results hl hilt⟩

/-- Witness for C4 at concrete inputs: totals (20, 30) on a concrete
9-row table resolve through the lookup table. -/
theorem resolver_total_fixed_table_witness :
    ∃ (i : ℕ) (h : i < nineResults.length),
      lookupCategory (get_result_category (.val 20) (.val 30)) = some i ∧
      find_result (.val 20) (.val 30) nineResults =
        .found (nineResults.get ⟨i, h⟩) :=
  (resolver_total_fixed_table).2.2.2.2.2.2.2.2.2 (.val 20) (.val 30)
    nineResults (by decide)

/-- Claim C10: the classifier is total over all float inputs, a NaN
score lands in HIGH (both band comparisons are false), and on a results
table of at least 9 rows the not-found branch of `find_result` is
unreachable. -/
theorem classifier_total_never_notfound :
    (∀ w p : PFloat,
      ((get_result_category w p).1 = "LOW" ∨ (get_result_category w p).1 = "MID" ∨
        (get_result_category w p).1 = "HIGH") ∧
      ((get_result_category w p).2 = "LOW" ∨ (get_result_category w p).2 = "MID" ∨
        (get_result_category w p).2 = "HIGH")) ∧
    (∀ p : PFloat, (get_result_category .nan p).1 = "HIGH") ∧
    (∀ w : PFloat, (get_result_category w .nan).2 = "HIGH") ∧
    ∀ (w p : PFloat) (results : List ResultRow), 9 ≤ results.length →
      find_result w p results ≠ .notFound ∧
      ∃ r, find_result w p results = .found r := by
  refine ⟨category_component_cases, fun p => rfl, fun w => ?_, ?_⟩
  · unfold get_result_category PFloat.leB
    simp
  · intro w p results hlen
    obtain ⟨i, hi, hl⟩ := lookup_category_total w p
    have hilt : i < results.length := by omega
    rw [find_result_eq_found w p results hl hilt]
    exact ⟨by simp, _, rfl⟩

/-- Witness for C10: totals (0, 0) on a concrete 9-row table do not hit
the not-found branch. -/
theorem classifier_total_never_notfound_witness :
    find_result (.val 0) (.val 0) nineResults ≠ .notFound :=
  (classifier_total_never_notfound.2.2.2 (.val 0) (.val 0) nineResults
    (by decide)).1

/-- Counterexample to C1: on a results source with a single valid row,
`load_results` returns that 1-row table as an ordinary value; there is
no error path at all in the function (it is `dropna` then `head(9)`), so
nothing like a DataValidationError is surfaced when fewer than 9 valid
rows remain. -/
theorem load_results_short_no_error :
    load_results oneResultRow = oneResultRow ∧
    (load_results oneResultRow).length = 1 := by
  constructor <;> rfl

/-- Claim C1 amended: result loading drops rows whose name cell is
missing and truncates to the first 9 remaining rows; when fewer than 9
valid rows remain it silently returns the shorter table, raising no
error. -/
theorem load_results_truncate_silent (rows : List ResultRow) :
    (load_results rows).length =
      min 9 (rows.filter (fun r => !r.name.isna)).length ∧
    (load_results rows).all (fun r => !r.name.isna) = true := by
  constructor
  · exact List.length_take 9 _
  · rw [List.all_eq_true]
    intro r hr
    exact (List.mem_filter.mp (List.take_subset _ _ hr)).2

/-- Claim C3 (code bug): a missing or non-numeric score cell is coerced
to NaN by `to_numeric`, and the `or 0.0` default never fires because NaN
is truthy in Python; the loaded score is NaN, not 0.0, and it poisons
the accumulated work total to NaN instead of contributing zero. -/
theorem missing_score_cell_loads_nan :
    toNumeric Cell.na = PFloat.nan ∧
    toNumeric (Cell.txt "abc") = PFloat.nan ∧
    pyOrF (toNumeric Cell.na) (.val 0) = PFloat.nan ∧
    (mkOption rowBadWork2 2).work = PFloat.nan ∧
    (mkOption rowBadWork2 2).work ≠ PFloat.val 0 ∧
    calcTotals [mkQuestion (fun l => l) rowBadWork2] [some "B"] =
      some (PFloat.nan, PFloat.val 3) := by
  refine ⟨rfl, rfl, rfl, rfl, by decide, ?_⟩
  have h0 : calcTotals [mkQuestion (fun l => l) rowBadWork2] [some "B"] =
      some (PFloat.nan, PFloat.val (0 + 3)) := rfl
  rw [zero_add] at h0
  exact h0

/-- Claim C8 (code bug): a missing (NA) answer-text cell is truthy in
Python, so `or "Option N"` never fires for it and the loaded text is
`str(nan) = "nan"`, not the placeholder; only a literal empty-string
cell gets the placeholder. -/
theorem missing_option_text_loads_nan :
    (mkOption rowMissingAns3 3).text = "nan" ∧
    (mkOption rowMissingAns3 3).text ≠ "Option 3" ∧
    optionText Cell.na 3 = "nan" ∧
    optionText (Cell.txt "") 3 = "Option 3" := by
  refine ⟨rfl, ?_, rfl, rfl⟩
  decide

/-- Claim C9: the loader goes positional exactly when the source looks
headerless (at least 15 columns, or the first column header is the
auto-label A or Unnamed: 0); the positional names assign, in order, the
question text, 4 answer texts, a skipped column, 4 work scores, a
skipped column, 4 personality scores; and both shapes produce a column
plan (the loader fails on neither). -/
theorem headerless_positional_layout :
    quizColnames = ["question", "ans1", "ans2", "ans3", "ans4", "skip1",
      "work1", "work2", "work3", "work4", "skip2",
      "pers1", "pers2", "pers3", "pers4"] ∧
    quizColnames.length = 15 ∧
    (∀ cols : List String,
      (choosePlan cols = .positional ↔
        15 ≤ cols.length ∨ cols.headD "" = "A" ∨ cols.headD "" = "Unnamed: 0") ∧
      (choosePlan cols = .positional ∨ choosePlan cols = .labeled)) ∧
    ∀ q a1 a2 a3 a4 s1 w1 w2 w3 w4 s2 p1 p2 p3 p4 : Cell,
      rowOfCells [q, a1, a2, a3, a4, s1, w1, w2, w3, w4, s2, p1, p2, p3, p4] =
        { question := q, ans1 := a1, ans2 := a2, ans3 := a3, ans4 := a4,
          work1 := w1, work2 := w2, work3 := w3, work4 := w4,
          pers1 := p1, pers2 := p2, pers3 := p3, pers4 := p4 } := by
  refine ⟨rfl, rfl, fun cols => ⟨?_, ?_⟩,
    fun q a1 a2 a3 a4 s1 w1 w2 w3 w4 s2 p1 p2 p3 p4 => rfl⟩
  · rw [choosePlan]
    split_ifs with h <;>
      simp only [looksHeaderless, Bool.or_eq_true, decide_eq_true_eq,
        or_assoc] at h <;>
      simpa using h
  · rw [choosePlan]
    split_ifs <;> simp

/-- Helper: adding float zero on the right is the identity. -/
theorem pf_add_val_zero (a : PFloat) : a.add (.val 0) = a := by
  cases a <;> simp [PFloat.add]

/-- Helper: adding float zero on the left is the identity. -/
theorem pf_val_zero_add (a : PFloat) : (PFloat.val 0).add a = a := by
  cases a <;> simp [PFloat.add]

/-- Helper: float addition is associative (NaN absorbs on both sides). -/
theorem pf_add_assoc (a b c : PFloat) : (a.add b).add c = a.add (b.add c) := by
  cases a <;> cases b <;> cases c <;> simp [PFloat.add, add_assoc]

/-- Helper: the accumulation loop computes the spec-side raw sums, from
any starting accumulator, whenever each response denotes its selection. -/
theorem calcAux_eq_rawSum :
    ∀ (pairs : List (Question × Option String)) (sel : List (Option Opt)),
      List.Forall₂ (fun pr o => Selects pr.1 pr.2 o) pairs sel →
      ∀ acc : PFloat × PFloat,
        calcAux pairs acc =
          some (acc.1.add (rawWork sel), acc.2.add (rawPers sel)) := by
  intro pairs
  induction pairs with
  | nil =>
    intro sel h acc
    cases h
    simp [calcAux, rawWork, rawPers, pf_add_val_zero]
  | cons pr rest ih =>
    intro sel h acc
    cases h with
    | cons hrel hrest =>
      obtain ⟨q, resp⟩ := pr
      cases hrel with
      | unanswered =>
        simp only [calcAux]
        rw [ih _ hrest]
        simp [rawWork, rawPers, selWork, selPers, pf_val_zero_add]
      | answered c o hc hfind =>
        simp only [calcAux]
        rw [if_neg hc]
        simp only [hfind]
        rw [ih _ hrest]
        simp [rawWork, rawPers, selWork, selPers, pf_add_assoc]

/-- Helper: when every response is missing the accumulator passes
through unchanged. -/
theorem calcAux_all_none :
    ∀ (pairs : List (Question × Option String)) (acc : PFloat × PFloat),
      (∀ pr ∈ pairs, pr.2 = none) → calcAux pairs acc = some acc := by
  intro pairs
  induction pairs with
  | nil => intro acc _; rfl
  | cons pr rest ih =>
    intro acc h
    obtain ⟨q, resp⟩ := pr
    have hr : resp = none := h (q, resp) (List.mem_cons_self _ _)
    subst hr
    simp only [calcAux]
    exact ih acc (fun pr hpr => h pr (List.mem_cons_of_mem _ hpr))

/-- Claim C5: the accumulated totals are the raw sums of the selected
options over the answered entries, unanswered entries contribute zero;
an attempt with zero answers yields totals (0, 0), classifies LOW/LOW,
and resolves to result row 8. -/
theorem totals_are_raw_sums :
    (∀ (qs : List Question) (rs : List (Option String)) (sel : List (Option Opt)),
      rs.length = qs.length →
      List.Forall₂ (fun pr o => Selects pr.1 pr.2 o) (qs.zip rs) sel →
      calcTotals qs rs = some (rawWork sel, rawPers sel)) ∧
    (∀ qs : List Question,
      calcTotals qs (List.replicate qs.length none) = some (.val 0, .val 0)) ∧
    get_result_category (.val 0) (.val 0) = ("LOW", "LOW") ∧
    lookupCategory ("LOW", "LOW") = some 8 ∧
    (∀ results : List ResultRow, results.length = 9 →
      ∃ h8 : 8 < results.length,
        find_result (.val 0) (.val 0) results = .found (results.get ⟨8, h8⟩)) := by
  refine ⟨?_, ?_, by decide, by decide, ?_⟩
  · intro qs rs sel _ hrel
    rw [calcTotals, calcAux_eq_rawSum _ _ hrel]
    simp [pf_val_zero_add]
  · intro qs
    rw [calcTotals]
    apply calcAux_all_none
    intro pr hpr
    obtain ⟨q, resp⟩ := pr
    exact List.eq_of_mem_replicate (List.of_mem_zip hpr).2
  · intro results h9
    have h8 : (8 : ℕ) < results.length := by omega
    exact ⟨h8, find_result_eq_found _ _ _ (by decide) h8⟩

/-- Witness for C5: one question, the option with text A selected. -/
theorem totals_are_raw_sums_witness :
    calcTotals [wQ] [some "A"] =
      some (rawWork [some wOptA], rawPers [some wOptA]) :=
  totals_are_raw_sums.1 [wQ] [some "A"] [some wOptA] rfl
    (List.Forall₂.cons (Selects.answered "A" wOptA (by decide) (by decide))
      List.Forall₂.nil)

/-- Helper: in a list of options with pairwise distinct texts, an option
is determined by its text. -/
theorem nodup_text_inj {l : List Opt}
    (h : (l.map (fun o => o.text)).Nodup) :
    ∀ a ∈ l, ∀ b ∈ l, a.text = b.text → a = b := by
  rw [List.Nodup, List.pairwise_map] at h
  intro a ha b hb hab
  by_contra hne
  exact List.Pairwise.forall (by intro x y hxy; exact hxy.symm) h ha hb hne hab

/-- Helper: `find?` by text is invariant under permuting an option list
whose texts are pairwise distinct. -/
theorem find_text_perm_invariant (l l' : List Opt) (hp : l'.Perm l)
    (hnd : (l.map (fun o => o.text)).Nodup) (c : String) :
    l.find? (fun o => o.text == c) = l'.find? (fun o => o.text == c) := by
  cases hfl : l.find? (fun o => o.text == c) with
  | none =>
    symm
    rw [List.find?_eq_none] at hfl ⊢
    intro x hx
    exact hfl x (hp.subset hx)
  | some o =>
    have hmem : o ∈ l := List.mem_of_find?_eq_some hfl
    have hpo : o.text = c := by simpa using List.find?_some hfl
    cases hfl' : l'.find? (fun o => o.text == c) with
    | none =>
      rw [List.find?_eq_none] at hfl'
      exact absurd (show (o.text == c) = true by simp [hpo])
        (hfl' o (hp.symm.subset hmem))
    | some o' =>
      have hmem' : o' ∈ l := hp.subset (List.mem_of_find?_eq_some hfl')
      have hpo' : o'.text = c := by simpa using List.find?_some hfl'
      rw [nodup_text_inj hnd o hmem o' hmem' (hpo.trans hpo'.symm)]

/-- Helper: the accumulation loop is invariant under permuting each
question's options, provided the texts within each question are
pairwise distinct. -/
theorem calcAux_options_perm :
    ∀ pairs pairs' : List (Question × Option String),
      List.Forall₂ (fun pr pr' => pr'.2 = pr.2 ∧
        pr'.1.options.Perm pr.1.options ∧
        (pr.1.options.map (fun o => o.text)).Nodup) pairs pairs' →
      ∀ acc, calcAux pairs acc = calcAux pairs' acc := by
  intro pairs
  induction pairs with
  | nil =>
    intro pairs' h acc
    cases h
    rfl
  | cons pr rest ih =>
    intro pairs' h acc
    cases h with
    | cons hrel hrest =>
      rename_i pr' rest'
      obtain ⟨q, resp⟩ := pr
      obtain ⟨q', resp'⟩ := pr'
      obtain ⟨hresp, hperm, hnd⟩ := hrel
      simp only at hresp hperm hnd
      rw [hresp]
      cases resp with
      | none =>
        simp only [calcAux]
        exact ih _ hrest acc
      | some c =>
        simp only [calcAux]
        by_cases hc : c = ""
        · rw [if_pos hc, if_pos hc]
          exact ih _ hrest acc
        · rw [if_neg hc, if_neg hc,
            ← find_text_perm_invariant q.options q'.options hperm hnd c]
          cases hf : q.options.find? (fun o => o.text == c) with
          | none => rfl
          | some o => exact ih _ hrest _

/-- Claim C6 amended: permuting each question's option list does not
change the accumulated totals, provided the option texts within each
question are pairwise distinct (the handler matches the chosen answer
by text, so duplicate texts can resolve to different options). -/
theorem option_order_independent
    (qs qs' : List Question) (rs : List (Option String))
    (h : List.Forall₂ (fun q q' => q'.question = q.question ∧
      q'.options.Perm q.options ∧
      (q.options.map (fun o => o.text)).Nodup) qs qs') :
    calcTotals qs rs = calcTotals qs' rs := by
  rw [calcTotals, calcTotals]
  apply calcAux_options_perm
  induction h generalizing rs with
  | nil =>
    cases rs <;> exact List.Forall₂.nil
  | cons hrel hrest ih =>
    cases rs with
    | nil => exact List.Forall₂.nil
    | cons r rtl =>
      exact List.Forall₂.cons ⟨rfl, hrel.2.1, hrel.2.2⟩ (ih rtl)

/-- Witness for C6: swapping two distinct-text options leaves the
totals unchanged. -/
theorem option_order_independent_witness :
    calcTotals [wQ] [some "A"] = calcTotals [wQswapped] [some "A"] :=
  option_order_independent _ _ _
    (List.Forall₂.cons ⟨rfl, List.Perm.swap _ _ _, by decide⟩ List.Forall₂.nil)

/-- Counterexample to C6 as stated: with two options sharing the text A
but carrying different work scores, permuting the option list changes
the computed totals, because the handler resolves the chosen text to
the first matching option. -/
theorem option_order_counterexample :
    dupQswapped.options.Perm dupQ.options ∧
    dupQswapped.question = dupQ.question ∧
    calcTotals [dupQ] [some "A"] = some (.val 1, .val 0) ∧
    calcTotals [dupQswapped] [some "A"] = some (.val 2, .val 0) ∧
    calcTotals [dupQ] [some "A"] ≠ calcTotals [dupQswapped] [some "A"] := by
  have h1 : calcTotals [dupQ] [some "A"] =
      some (.val (0 + 1), .val (0 + 0)) := rfl
  have h2 : calcTotals [dupQswapped] [some "A"] =
      some (.val (0 + 2), .val (0 + 0)) := rfl
  rw [zero_add, zero_add] at h1
  rw [zero_add, zero_add] at h2
  refine ⟨List.Perm.swap _ _ _, rfl, h1, h2, ?_⟩
  rw [h1, h2]
  intro hcontra
  simp only [Option.some.injEq, Prod.mk.injEq, PFloat.val.injEq] at hcontra
  norm_num at hcontra

/-- Helper: a cell fails `pd.isna` exactly when it is not the NA cell. -/
theorem cell_isna_false (c : Cell) : (!c.isna) = true ↔ c ≠ Cell.na := by
  cases c <;> simp [Cell.isna]

/-- Claim C7: question loading keeps exactly the rows whose question
cell is present: the number of loaded questions is the number of rows
with a present question cell, every such row contributes its question
record (whatever its option cells hold), and every loaded question
record comes from such a row. -/
theorem question_row_kept_iff_text_present
    (σo : List Opt → List Opt) (σq : List Question → List Question)
    (hσq : ∀ l, (σq l).Perm l) (rows : List Row) :
    ((load_questions σo σq rows).length =
      rows.countP (fun r => !r.question.isna)) ∧
    (∀ r ∈ rows, r.question ≠ Cell.na →
      mkQuestion σo r ∈ load_questions σo σq rows) ∧
    (∀ q ∈ load_questions σo σq rows,
      ∃ r ∈ rows, r.question ≠ Cell.na ∧ q = mkQuestion σo r) := by
  refine ⟨?_, ?_, ?_⟩
  · rw [load_questions, (hσq _).length_eq, List.length_map,
      ← List.countP_eq_length_filter]
  · intro r hr hq
    rw [load_questions, (hσq _).mem_iff]
    exact List.mem_map_of_mem _
      (List.mem_filter.mpr ⟨hr, (cell_isna_false _).mpr hq⟩)
  · intro q hq
    rw [load_questions, (hσq _).mem_iff] at hq
    obtain ⟨r, hrf, rfl⟩ := List.mem_map.mp hq
    obtain ⟨hr, hpred⟩ := List.mem_filter.mp hrf
    exact ⟨r, hr, (cell_isna_false _).mp hpred, rfl⟩

/-- Witness for C7: of two concrete rows, the one with a question text
is kept and the one without is dropped. -/
theorem question_row_kept_iff_text_present_witness :
    ((load_questions (fun l => l) (fun l => l)
        [rowMissingAns3, rowNoQuestion]).length =
      ([rowMissingAns3, rowNoQuestion] : List Row).countP
        (fun r => !r.question.isna)) ∧
    mkQuestion (fun l => l) rowMissingAns3 ∈
      load_questions (fun l => l) (fun l => l) [rowMissingAns3, rowNoQuestion] :=
  ⟨(question_row_kept_iff_text_present (fun l => l) (fun l => l)
      (fun l => List.Perm.refl l) [rowMissingAns3, rowNoQuestion]).1,
   (question_row_kept_iff_text_present (fun l => l) (fun l => l)
      (fun l => List.Perm.refl l) [rowMissingAns3, rowNoQuestion]).2.1
      rowMissingAns3 (List.mem_cons_self _ _) (by decide)⟩

end QuizApp
